import Mathlib

/-!
Shallow embedding of the synthetic municipal-finance data generator for the
communes of New Caledonia (`NCom.py`), together with theorems settling the
specification claims.  All monetary arithmetic is carried out exactly over `ℚ`;
the per-series Gaussian noise of the source is modelled by an explicit noise
parameter (the noise value that the source would multiply in), so that the
noise-disabled runs of the spec correspond to passing the constant value `1`.
-/

namespace NCom

/-- Configuration record for one commune (`_get_commune_config` entries). -/
@[ext] structure CommuneConfig where
  population_base : ℚ
  budget_base : ℚ
  type : String
  specialites : List String
deriving DecidableEq

/-- The fixed configuration table of `_get_commune_config`, in source order. -/
def communeConfigs : List (String × CommuneConfig) :=
  [ ("Nouméa",
      ⟨100000, 180, "urbaine", ["administration", "commerce", "tourisme", "port", "services"]⟩),
    ("Mont-Dore",
      ⟨28000, 75, "periurbaine", ["tourisme", "nature", "agriculture", "reservoir_eau"]⟩),
    ("Dumbéa",
      ⟨35000, 85, "periurbaine", ["zones_activites", "commerce", "services", "education"]⟩),
    ("Païta",
      ⟨25000, 70, "periurbaine", ["aeroport", "logistique", "commerce", "agriculture"]⟩),
    ("Koné",
      ⟨8000, 50, "rurale", ["administration_nord", "mine", "agriculture", "elevage"]⟩),
    ("Bourail",
      ⟨5500, 45, "rurale", ["agriculture", "elevage", "tourisme", "culture"]⟩),
    ("La Foa",
      ⟨3500, 40, "rurale", ["agriculture", "culture", "tourisme", "histoire"]⟩),
    ("Poindimié",
      ⟨5000, 42, "cotiere", ["agriculture", "peche", "tourisme", "culture_kanak"]⟩),
    ("Île des Pins",
      ⟨2000, 35, "insulaire", ["tourisme", "plages", "culture", "preservation"]⟩),
    ("default",
      ⟨3000, 30, "rurale", ["agriculture", "petit_commerce", "services_locaux"]⟩) ]

/-- The default configuration (`configs["default"]`). -/
def defaultConfig : CommuneConfig :=
  ⟨3000, 30, "rurale", ["agriculture", "petit_commerce", "services_locaux"]⟩

/-- `_get_commune_config`: exact lookup, falling back to `configs["default"]`. -/
def get_commune_config (name : String) : CommuneConfig :=
  (communeConfigs.lookup name).getD defaultConfig

def start_year : ℕ := 2002
def end_year : ℕ := 2025

/-- The calendar year of row index `i` (`pd.date_range(...).year`). -/
def yearOf (i : ℕ) : ℕ := start_year + i

/-- `_simulate_population` (no noise in the source). -/
def simulate_population (cfg : CommuneConfig) (i : ℕ) : ℚ :=
  let growth_rate : ℚ :=
    if cfg.type = "urbaine" then 0.018
    else if cfg.type = "periurbaine" then 0.022
    else if cfg.type = "insulaire" then 0.015
    else 0.012
  cfg.population_base * (1 + growth_rate * i)

/-- `_simulate_households` (no noise in the source). -/
def simulate_households (cfg : CommuneConfig) (i : ℕ) : ℚ :=
  (cfg.population_base / 2.7) * (1 + 0.015 * i)

/-- `_simulate_total_revenue`. -/
def simulate_total_revenue (cfg : CommuneConfig) (i : ℕ) (noise : ℚ) : ℚ :=
  let growth_rate : ℚ :=
    if cfg.type = "urbaine" then 0.038
    else if cfg.type = "periurbaine" then 0.042
    else if cfg.type = "insulaire" then 0.035
    else 0.032
  cfg.budget_base * (1 + growth_rate * i) * noise

/-- `_simulate_tax_revenue`. -/
def simulate_tax_revenue (cfg : CommuneConfig) (i : ℕ) (noise : ℚ) : ℚ :=
  cfg.budget_base * 0.45 * (1 + 0.028 * i) * noise

/-- `_simulate_state_grants`. -/
def simulate_state_grants (cfg : CommuneConfig) (i : ℕ) (noise : ℚ) : ℚ :=
  let year := yearOf i
  let increase : ℚ := if 2010 ≤ year then 1 + 0.01 * ((year : ℚ) - 2010) else 1
  cfg.budget_base * 0.25 * increase * noise

/-- `_simulate_territorial_grants`. -/
def simulate_territorial_grants (cfg : CommuneConfig) (i : ℕ) (noise : ℚ) : ℚ :=
  let year := yearOf i
  let increase : ℚ := if 2000 ≤ year then 1 + 0.012 * ((year : ℚ) - 2000) else 1
  cfg.budget_base * 0.15 * increase * noise

/-- `_simulate_other_revenue`. -/
def simulate_other_revenue (cfg : CommuneConfig) (i : ℕ) (noise : ℚ) : ℚ :=
  cfg.budget_base * 0.15 * (1 + 0.026 * i) * noise

/-- `_simulate_total_expenses`. -/
def simulate_total_expenses (cfg : CommuneConfig) (i : ℕ) (noise : ℚ) : ℚ :=
  cfg.budget_base * 0.95 * (1 + 0.032 * i) * noise

/-- `_simulate_operating_expenses`. -/
def simulate_operating_expenses (cfg : CommuneConfig) (i : ℕ) (noise : ℚ) : ℚ :=
  cfg.budget_base * 0.60 * (1 + 0.026 * i) * noise

/-- `_simulate_investment_expenses`. -/
def simulate_investment_expenses (cfg : CommuneConfig) (i : ℕ) (noise : ℚ) : ℚ :=
  let year := yearOf i
  let multiplier : ℚ :=
    if year ∈ [2006, 2012, 2018, 2023] then 1.7
    else if year ∈ [2008, 2014, 2020] then 0.78
    else 1.0
  cfg.budget_base * 0.35 * (1 + 0.024 * i) * multiplier * noise

/-- `_simulate_debt_charges`. -/
def simulate_debt_charges (cfg : CommuneConfig) (i : ℕ) (noise : ℚ) : ℚ :=
  let year := yearOf i
  let increase : ℚ := if 2005 ≤ year then 1 + 0.009 * ((year : ℚ) - 2005) else 1
  cfg.budget_base * 0.05 * increase * noise

/-- `_simulate_staff_costs`. -/
def simulate_staff_costs (cfg : CommuneConfig) (i : ℕ) (noise : ℚ) : ℚ :=
  cfg.budget_base * 0.40 * (1 + 0.027 * i) * noise

/-- `_simulate_gross_savings`. -/
def simulate_gross_savings (cfg : CommuneConfig) (i : ℕ) (noise : ℚ) : ℚ :=
  let year := yearOf i
  let improvement : ℚ := if 2010 ≤ year then 1 + 0.01 * ((year : ℚ) - 2010) else 1
  cfg.budget_base * 0.05 * improvement * noise

/-- `_simulate_total_debt`. -/
def simulate_total_debt (cfg : CommuneConfig) (i : ℕ) (noise : ℚ) : ℚ :=
  let year := yearOf i
  let change : ℚ :=
    if year ∈ [2006, 2012, 2018, 2023] then 1.25
    else if year ∈ [2009, 2015, 2021] then 0.9
    else 1.0
  cfg.budget_base * 0.65 * change * noise

/-- `_simulate_debt_ratio` (independent of the configuration). -/
def simulate_debt_ratio (i : ℕ) (noise : ℚ) : ℚ :=
  let year := yearOf i
  let improvement : ℚ := if 2010 ≤ year then 1 - 0.012 * ((year : ℚ) - 2010) else 1
  0.60 * improvement * noise

/-- `_simulate_tax_rate` (independent of the configuration). -/
def simulate_tax_rate (i : ℕ) (noise : ℚ) : ℚ :=
  let year := yearOf i
  let increase : ℚ := if 2010 ≤ year then 1 + 0.004 * ((year : ℚ) - 2010) else 1
  0.95 * increase * noise

/-- Specialty multiplier of `_simulate_agriculture_investment`. -/
def agriculture_multiplier (sp : List String) : ℚ :=
  if "agriculture" ∈ sp then 1.4 else 0.8

/-- `_simulate_agriculture_investment`. -/
def simulate_agriculture_investment (cfg : CommuneConfig) (i : ℕ) (noise : ℚ) : ℚ :=
  let year := yearOf i
  let year_multiplier : ℚ := if year ∈ [2005, 2010, 2015, 2020] then 1.9 else 1.0
  cfg.budget_base * 0.05 * (1 + 0.03 * i) * year_multiplier *
    agriculture_multiplier cfg.specialites * noise

/-- Specialty multiplier of `_simulate_tourism_investment`. -/
def tourism_multiplier (sp : List String) : ℚ :=
  if "tourisme" ∈ sp then 1.7 else 0.7

/-- `_simulate_tourism_investment`. -/
def simulate_tourism_investment (cfg : CommuneConfig) (i : ℕ) (noise : ℚ) : ℚ :=
  let year := yearOf i
  let year_multiplier : ℚ := if year ∈ [2007, 2013, 2019, 2024] then 1.9 else 1.0
  cfg.budget_base * 0.06 * (1 + 0.035 * i) * year_multiplier *
    tourism_multiplier cfg.specialites * noise

/-- Specialty multiplier of `_simulate_transport_investment`. -/
def transport_multiplier (sp : List String) : ℚ :=
  if "transport" ∈ sp then 1.5 else 0.9

/-- `_simulate_transport_investment`. -/
def simulate_transport_investment (cfg : CommuneConfig) (i : ℕ) (noise : ℚ) : ℚ :=
  let year := yearOf i
  let year_multiplier : ℚ := if year ∈ [2006, 2012, 2018, 2023] then 1.8 else 1.0
  cfg.budget_base * 0.04 * (1 + 0.027 * i) * year_multiplier *
    transport_multiplier cfg.specialites * noise

/-- Specialty multiplier of `_simulate_education_investment`. -/
def education_multiplier (sp : List String) : ℚ :=
  if "education" ∈ sp then 1.4 else 0.9

/-- `_simulate_education_investment`. -/
def simulate_education_investment (cfg : CommuneConfig) (i : ℕ) (noise : ℚ) : ℚ :=
  let year := yearOf i
  let year_multiplier : ℚ := if year ∈ [2008, 2014, 2020] then 1.7 else 1.0
  cfg.budget_base * 0.05 * (1 + 0.028 * i) * year_multiplier *
    education_multiplier cfg.specialites * noise

/-- Specialty multiplier of `_simulate_environment_investment`. -/
def environment_multiplier (sp : List String) : ℚ :=
  if "environnement" ∈ sp then 1.5 else 0.8

/-- `_simulate_environment_investment`. -/
def simulate_environment_investment (cfg : CommuneConfig) (i : ℕ) (noise : ℚ) : ℚ :=
  let year := yearOf i
  let year_multiplier : ℚ := if year ∈ [2009, 2015, 2021] then 2.0 else 1.0
  cfg.budget_base * 0.04 * (1 + 0.032 * i) * year_multiplier *
    environment_multiplier cfg.specialites * noise

/-- Specialty multiplier of `_simulate_culture_investment`. -/
def culture_multiplier (sp : List String) : ℚ :=
  if "culture" ∈ sp then 1.6 else 0.7

/-- `_simulate_culture_investment`. -/
def simulate_culture_investment (cfg : CommuneConfig) (i : ℕ) (noise : ℚ) : ℚ :=
  let year := yearOf i
  let year_multiplier : ℚ := if year ∈ [2010, 2016, 2022] then 1.8 else 1.0
  cfg.budget_base * 0.03 * (1 + 0.026 * i) * year_multiplier *
    culture_multiplier cfg.specialites * noise

/-- Specialty multiplier of `_simulate_mining_investment`. -/
def mining_multiplier (sp : List String) : ℚ :=
  if "mine" ∈ sp then 1.8 else 0.6

/-- `_simulate_mining_investment`. -/
def simulate_mining_investment (cfg : CommuneConfig) (i : ℕ) (noise : ℚ) : ℚ :=
  let year := yearOf i
  let year_multiplier : ℚ := if year ∈ [2007, 2013, 2019, 2024] then 2.1 else 1.0
  cfg.budget_base * 0.04 * (1 + 0.038 * i) * year_multiplier *
    mining_multiplier cfg.specialites * noise

/-- One row of the generated table (`generate_financial_data` columns). -/
@[ext] structure YearRow where
  Annee : ℕ
  Population : ℚ
  Menages : ℚ
  Recettes_Totales : ℚ
  Impots_Locaux : ℚ
  Dotations_Etat : ℚ
  Dotations_Territoriales : ℚ
  Autres_Recettes : ℚ
  Depenses_Totales : ℚ
  Fonctionnement : ℚ
  Investissement : ℚ
  Charge_Dette : ℚ
  Personnel : ℚ
  Epargne_Brute : ℚ
  Dette_Totale : ℚ
  Taux_Endettement : ℚ
  Taux_Fiscalite : ℚ
  Investissement_Agriculture : ℚ
  Investissement_Tourisme : ℚ
  Investissement_Transport : ℚ
  Investissement_Education : ℚ
  Investissement_Environnement : ℚ
  Investissement_Culture : ℚ
  Investissement_Mine : ℚ
deriving DecidableEq

/-- The per-series, per-year noise values (`np.random.normal(1, σ)` draws of the
source, one stream per noisy series, indexed by the year index `i`). -/
structure Noise where
  recettes_totales : ℕ → ℚ
  impots_locaux : ℕ → ℚ
  dotations_etat : ℕ → ℚ
  dotations_territoriales : ℕ → ℚ
  autres_recettes : ℕ → ℚ
  depenses_totales : ℕ → ℚ
  fonctionnement : ℕ → ℚ
  investissement : ℕ → ℚ
  charge_dette : ℕ → ℚ
  personnel : ℕ → ℚ
  epargne_brute : ℕ → ℚ
  dette_totale : ℕ → ℚ
  taux_endettement : ℕ → ℚ
  taux_fiscalite : ℕ → ℚ
  inv_agriculture : ℕ → ℚ
  inv_tourisme : ℕ → ℚ
  inv_transport : ℕ → ℚ
  inv_education : ℕ → ℚ
  inv_environnement : ℕ → ℚ
  inv_culture : ℕ → ℚ
  inv_mine : ℕ → ℚ

/-- Noise disabled: every noise factor is `1` (standard deviation forced to 0). -/
def noNoise : Noise :=
  ⟨fun _ => 1, fun _ => 1, fun _ => 1, fun _ => 1, fun _ => 1, fun _ => 1, fun _ => 1,
   fun _ => 1, fun _ => 1, fun _ => 1, fun _ => 1, fun _ => 1, fun _ => 1, fun _ => 1,
   fun _ => 1, fun _ => 1, fun _ => 1, fun _ => 1, fun _ => 1, fun _ => 1, fun _ => 1⟩

/-- The predicate that a noise assignment has every factor equal to `1`. -/
def Noise.allOnes (n : Noise) : Prop := ∀ i : ℕ,
  n.recettes_totales i = 1 ∧ n.impots_locaux i = 1 ∧ n.dotations_etat i = 1 ∧
  n.dotations_territoriales i = 1 ∧ n.autres_recettes i = 1 ∧ n.depenses_totales i = 1 ∧
  n.fonctionnement i = 1 ∧ n.investissement i = 1 ∧ n.charge_dette i = 1 ∧
  n.personnel i = 1 ∧ n.epargne_brute i = 1 ∧ n.dette_totale i = 1 ∧
  n.taux_endettement i = 1 ∧ n.taux_fiscalite i = 1 ∧ n.inv_agriculture i = 1 ∧
  n.inv_tourisme i = 1 ∧ n.inv_transport i = 1 ∧ n.inv_education i = 1 ∧
  n.inv_environnement i = 1 ∧ n.inv_culture i = 1 ∧ n.inv_mine i = 1

/-- Row `i` of the table assembled in `generate_financial_data`, before the
event-adjustment pass. -/
def genRow (cfg : CommuneConfig) (nz : Noise) (i : ℕ) : YearRow where
  Annee := yearOf i
  Population := simulate_population cfg i
  Menages := simulate_households cfg i
  Recettes_Totales := simulate_total_revenue cfg i (nz.recettes_totales i)
  Impots_Locaux := simulate_tax_revenue cfg i (nz.impots_locaux i)
  Dotations_Etat := simulate_state_grants cfg i (nz.dotations_etat i)
  Dotations_Territoriales := simulate_territorial_grants cfg i (nz.dotations_territoriales i)
  Autres_Recettes := simulate_other_revenue cfg i (nz.autres_recettes i)
  Depenses_Totales := simulate_total_expenses cfg i (nz.depenses_totales i)
  Fonctionnement := simulate_operating_expenses cfg i (nz.fonctionnement i)
  Investissement := simulate_investment_expenses cfg i (nz.investissement i)
  Charge_Dette := simulate_debt_charges cfg i (nz.charge_dette i)
  Personnel := simulate_staff_costs cfg i (nz.personnel i)
  Epargne_Brute := simulate_gross_savings cfg i (nz.epargne_brute i)
  Dette_Totale := simulate_total_debt cfg i (nz.dette_totale i)
  Taux_Endettement := simulate_debt_ratio i (nz.taux_endettement i)
  Taux_Fiscalite := simulate_tax_rate i (nz.taux_fiscalite i)
  Investissement_Agriculture := simulate_agriculture_investment cfg i (nz.inv_agriculture i)
  Investissement_Tourisme := simulate_tourism_investment cfg i (nz.inv_tourisme i)
  Investissement_Transport := simulate_transport_investment cfg i (nz.inv_transport i)
  Investissement_Education := simulate_education_investment cfg i (nz.inv_education i)
  Investissement_Environnement := simulate_environment_investment cfg i (nz.inv_environnement i)
  Investissement_Culture := simulate_culture_investment cfg i (nz.inv_culture i)
  Investissement_Mine := simulate_mining_investment cfg i (nz.inv_mine i)

/-- The table assembled in `generate_financial_data` before
`_add_municipal_trends` runs: one row per year of
`pd.date_range('2002-01-01', '2025-12-31', freq='Y')`. -/
def rawTable (cfg : CommuneConfig) (nz : Noise) : List YearRow :=
  (List.range (end_year - start_year + 1)).map (genRow cfg nz)

/-- `_add_municipal_trends`, block "Développement initial (2002-2005)". -/
def trend_initial (year : ℕ) (r : YearRow) : YearRow :=
  if 2002 ≤ year ∧ year ≤ 2005 then
    { r with
      Investissement_Agriculture := r.Investissement_Agriculture * 1.5,
      Investissement_Tourisme := r.Investissement_Tourisme * 1.4 }
  else r

/-- `_add_municipal_trends`, `if`/`elif` block "crise financière (2008-2009)" /
"Boom minier (2010-2014)". -/
def trend_crisis_boom (year : ℕ) (r : YearRow) : YearRow :=
  if 2008 ≤ year ∧ year ≤ 2009 then
    { r with
      Recettes_Totales := r.Recettes_Totales * 0.94,
      Investissement := r.Investissement * 0.85,
      Autres_Recettes := r.Autres_Recettes * 0.88 }
  else if 2010 ≤ year ∧ year ≤ 2014 then
    { r with
      Investissement_Mine := r.Investissement_Mine * 1.5,
      Dotations_Territoriales := r.Dotations_Territoriales * 1.3 }
  else r

/-- `_add_municipal_trends`, block "développement institutionnel" (year ≥ 2010). -/
def trend_institutional (year : ℕ) (r : YearRow) : YearRow :=
  if 2010 ≤ year then
    { r with Dotations_Etat := r.Dotations_Etat * (1 + 0.015 * ((year : ℚ) - 2010)) }
  else r

/-- `_add_municipal_trends`, block "crise COVID-19 (2020-2021)".  Note the
inner guard: only the 2020 row is actually adjusted. -/
def trend_pandemic (year : ℕ) (r : YearRow) : YearRow :=
  if 2020 ≤ year ∧ year ≤ 2021 then
    if year = 2020 then
      { r with
        Autres_Recettes := r.Autres_Recettes * 0.75,
        Investissement_Tourisme := r.Investissement_Tourisme * 0.88 }
    else r
  else r

/-- `_add_municipal_trends`, block "Préservation environnementale" (year ≥ 2010). -/
def trend_environment (year : ℕ) (r : YearRow) : YearRow :=
  if 2010 ≤ year then
    { r with
      Investissement_Environnement :=
        r.Investissement_Environnement * (1 + 0.034 * ((year : ℚ) - 2010)) }
  else r

/-- `_add_municipal_trends`, block "Plan de relance post-COVID" (year ≥ 2022). -/
def trend_stimulus (year : ℕ) (r : YearRow) : YearRow :=
  if 2022 ≤ year then
    { r with
      Investissement := r.Investissement * 1.15,
      Investissement_Tourisme := r.Investissement_Tourisme * 1.2,
      Investissement_Mine := r.Investissement_Mine * 1.18 }
  else r

/-- `_add_municipal_trends`, on one row: the six blocks of the source applied
in order, using the row's year.  The source iterates the rows of the data frame
and mutates each row in place using only that row's `Annee`, so the pass is
exactly this per-row function mapped over the table. -/
def add_municipal_trends (r : YearRow) : YearRow :=
  let year := r.Annee
  trend_stimulus year (trend_environment year (trend_pandemic year
    (trend_institutional year (trend_crisis_boom year (trend_initial year r)))))

/-- The event-adjustment pass over the whole table. -/
def add_municipal_trends_table (t : List YearRow) : List YearRow :=
  t.map add_municipal_trends

/-- `generate_financial_data`: the per-column generators followed by the
event-adjustment pass. -/
def generate_financial_data (cfg : CommuneConfig) (nz : Noise) : List YearRow :=
  add_municipal_trends_table (rawTable cfg nz)

/-- The configuration of the commune Koné: `population_base = 8000`,
`budget_base = 50`, rural, specialties containing mining and agriculture. -/
def koneConfig : CommuneConfig := get_commune_config "Koné"

/-! The combined multiplier that one application of `add_municipal_trends`
applies to each adjusted column of a row with year `y`. -/

def trendFactor_Agriculture (y : ℕ) : ℚ :=
  if 2002 ≤ y ∧ y ≤ 2005 then 1.5 else 1

def trendFactor_Tourisme (y : ℕ) : ℚ :=
  (if 2002 ≤ y ∧ y ≤ 2005 then 1.4 else 1) *
  (if 2020 ≤ y ∧ y ≤ 2021 then (if y = 2020 then 0.88 else 1) else 1) *
  (if 2022 ≤ y then 1.2 else 1)

def trendFactor_Recettes_Totales (y : ℕ) : ℚ :=
  if 2008 ≤ y ∧ y ≤ 2009 then 0.94 else 1

def trendFactor_Investissement (y : ℕ) : ℚ :=
  (if 2008 ≤ y ∧ y ≤ 2009 then 0.85 else 1) * (if 2022 ≤ y then 1.15 else 1)

def trendFactor_Autres_Recettes (y : ℕ) : ℚ :=
  (if 2008 ≤ y ∧ y ≤ 2009 then 0.88 else 1) *
  (if 2020 ≤ y ∧ y ≤ 2021 then (if y = 2020 then 0.75 else 1) else 1)

def trendFactor_Mine (y : ℕ) : ℚ :=
  (if 2008 ≤ y ∧ y ≤ 2009 then 1 else if 2010 ≤ y ∧ y ≤ 2014 then 1.5 else 1) *
  (if 2022 ≤ y then 1.18 else 1)

def trendFactor_Dotations_Territoriales (y : ℕ) : ℚ :=
  if 2008 ≤ y ∧ y ≤ 2009 then 1 else if 2010 ≤ y ∧ y ≤ 2014 then 1.3 else 1

def trendFactor_Dotations_Etat (y : ℕ) : ℚ :=
  if 2010 ≤ y then 1 + 0.015 * ((y : ℚ) - 2010) else 1

def trendFactor_Environnement (y : ℕ) : ℚ :=
  if 2010 ≤ y then 1 + 0.034 * ((y : ℚ) - 2010) else 1

lemma trend_initial_eq (y : ℕ) (r : YearRow) :
    trend_initial y r =
      { r with
        Investissement_Agriculture :=
          r.Investissement_Agriculture * (if 2002 ≤ y ∧ y ≤ 2005 then 1.5 else 1),
        Investissement_Tourisme :=
          r.Investissement_Tourisme * (if 2002 ≤ y ∧ y ≤ 2005 then 1.4 else 1) } := by
  unfold trend_initial
  split_ifs <;> (ext <;> dsimp only <;> ring)

lemma trend_crisis_boom_eq (y : ℕ) (r : YearRow) :
    trend_crisis_boom y r =
      { r with
        Recettes_Totales :=
          r.Recettes_Totales * (if 2008 ≤ y ∧ y ≤ 2009 then 0.94 else 1),
        Investissement :=
          r.Investissement * (if 2008 ≤ y ∧ y ≤ 2009 then 0.85 else 1),
        Autres_Recettes :=
          r.Autres_Recettes * (if 2008 ≤ y ∧ y ≤ 2009 then 0.88 else 1),
        Investissement_Mine :=
          r.Investissement_Mine *
            (if 2008 ≤ y ∧ y ≤ 2009 then 1 else if 2010 ≤ y ∧ y ≤ 2014 then 1.5 else 1),
        Dotations_Territoriales :=
          r.Dotations_Territoriales *
            (if 2008 ≤ y ∧ y ≤ 2009 then 1 else if 2010 ≤ y ∧ y ≤ 2014 then 1.3 else 1) } := by
  unfold trend_crisis_boom
  split_ifs <;> (ext <;> dsimp only <;> ring)

lemma trend_institutional_eq (y : ℕ) (r : YearRow) :
    trend_institutional y r =
      { r with
        Dotations_Etat :=
          r.Dotations_Etat * (if 2010 ≤ y then 1 + 0.015 * ((y : ℚ) - 2010) else 1) } := by
  unfold trend_institutional
  split_ifs <;> (ext <;> dsimp only <;> ring)

lemma trend_pandemic_eq (y : ℕ) (r : YearRow) :
    trend_pandemic y r =
      { r with
        Autres_Recettes :=
          r.Autres_Recettes *
            (if 2020 ≤ y ∧ y ≤ 2021 then (if y = 2020 then 0.75 else 1) else 1),
        Investissement_Tourisme :=
          r.Investissement_Tourisme *
            (if 2020 ≤ y ∧ y ≤ 2021 then (if y = 2020 then 0.88 else 1) else 1) } := by
  unfold trend_pandemic
  split_ifs <;> (ext <;> dsimp only <;> ring)

lemma trend_environment_eq (y : ℕ) (r : YearRow) :
    trend_environment y r =
      { r with
        Investissement_Environnement :=
          r.Investissement_Environnement *
            (if 2010 ≤ y then 1 + 0.034 * ((y : ℚ) - 2010) else 1) } := by
  unfold trend_environment
  split_ifs <;> (ext <;> dsimp only <;> ring)

lemma trend_stimulus_eq (y : ℕ) (r : YearRow) :
    trend_stimulus y r =
      { r with
        Investissement := r.Investissement * (if 2022 ≤ y then 1.15 else 1),
        Investissement_Tourisme :=
          r.Investissement_Tourisme * (if 2022 ≤ y then 1.2 else 1),
        Investissement_Mine := r.Investissement_Mine * (if 2022 ≤ y then 1.18 else 1) } := by
  unfold trend_stimulus
  split_ifs <;> (ext <;> dsimp only <;> ring)

/-- `add_municipal_trends` is a value-independent multiplicative update: it
scales each of the nine adjusted columns by a factor depending only on the
row's year, and leaves every other column unchanged. -/
lemma add_municipal_trends_eq (r : YearRow) :
    add_municipal_trends r =
      { r with
        Recettes_Totales := r.Recettes_Totales * trendFactor_Recettes_Totales r.Annee,
        Dotations_Etat := r.Dotations_Etat * trendFactor_Dotations_Etat r.Annee,
        Dotations_Territoriales :=
          r.Dotations_Territoriales * trendFactor_Dotations_Territoriales r.Annee,
        Autres_Recettes := r.Autres_Recettes * trendFactor_Autres_Recettes r.Annee,
        Investissement := r.Investissement * trendFactor_Investissement r.Annee,
        Investissement_Agriculture :=
          r.Investissement_Agriculture * trendFactor_Agriculture r.Annee,
        Investissement_Tourisme := r.Investissement_Tourisme * trendFactor_Tourisme r.Annee,
        Investissement_Environnement :=
          r.Investissement_Environnement * trendFactor_Environnement r.Annee,
        Investissement_Mine := r.Investissement_Mine * trendFactor_Mine r.Annee } := by
  unfold add_municipal_trends trendFactor_Recettes_Totales trendFactor_Dotations_Etat
    trendFactor_Dotations_Territoriales trendFactor_Autres_Recettes trendFactor_Investissement
    trendFactor_Agriculture trendFactor_Tourisme trendFactor_Environnement trendFactor_Mine
  simp only [trend_initial_eq, trend_crisis_boom_eq, trend_institutional_eq,
    trend_pandemic_eq, trend_environment_eq, trend_stimulus_eq]
  ext <;> dsimp only <;> ring_nf

/-! Shared helper lemmas. -/

lemma koneConfig_eq :
    koneConfig =
      ⟨8000, 50, "rurale", ["administration_nord", "mine", "agriculture", "elevage"]⟩ := by
  decide

lemma length_generate (cfg : CommuneConfig) (nz : Noise) :
    (generate_financial_data cfg nz).length = 24 := by
  simp [generate_financial_data, add_municipal_trends_table, rawTable, end_year, start_year]

lemma generate_get (cfg : CommuneConfig) (nz : Noise) (k : ℕ)
    (hk : k < (generate_financial_data cfg nz).length) :
    (generate_financial_data cfg nz).get ⟨k, hk⟩ = add_municipal_trends (genRow cfg nz k) := by
  simp [generate_financial_data, add_municipal_trends_table, rawTable, List.get_eq_getElem,
    List.getElem_map, List.getElem_range]

lemma add_municipal_trends_Annee (r : YearRow) :
    (add_municipal_trends r).Annee = r.Annee := by
  rw [add_municipal_trends_eq]

/-! Claim theorems. -/

/-- C4: for every locality name present in the fixed configuration table the
resolver returns exactly the stored record, and for every name not present it
returns the default record (population_base 3000, budget_base 30, rural); being
a total function, the resolver has no failure path for any input string. -/
theorem C4_resolver :
    (∀ p ∈ communeConfigs, get_commune_config p.1 = p.2) ∧
    (∀ name : String, communeConfigs.lookup name = none →
      get_commune_config name =
        { population_base := 3000, budget_base := 30, type := "rurale",
          specialites := ["agriculture", "petit_commerce", "services_locaux"] }) := by
  constructor
  · decide
  · intro name h
    simp [get_commune_config, h, defaultConfig]

/-- Witness for C4: the resolver at a stored name ("Koné") and at a name absent
from the table ("Ouégoa"). -/
theorem C4_witness :
    get_commune_config "Koné" =
      ⟨8000, 50, "rurale", ["administration_nord", "mine", "agriculture", "elevage"]⟩ ∧
    get_commune_config "Ouégoa" =
      ⟨3000, 30, "rurale", ["agriculture", "petit_commerce", "services_locaux"]⟩ :=
  ⟨C4_resolver.1
      ("Koné", ⟨8000, 50, "rurale", ["administration_nord", "mine", "agriculture", "elevage"]⟩)
      (by decide),
    C4_resolver.2 "Ouégoa" (by decide)⟩

/-- C5: for the configured range [2002, 2025] the generated table has exactly
`end_year - start_year + 1 = 24` rows, the year column of row `k` is
`start_year + k` (so it starts at `start_year`), and each row's year exceeds
the previous row's by exactly 1. -/
theorem C5_rows (cfg : CommuneConfig) (nz : Noise) :
    (generate_financial_data cfg nz).length = end_year - start_year + 1 ∧
    (∀ k (hk : k < (generate_financial_data cfg nz).length),
      ((generate_financial_data cfg nz).get ⟨k, hk⟩).Annee = start_year + k) ∧
    (∀ k (hk : k + 1 < (generate_financial_data cfg nz).length),
      ((generate_financial_data cfg nz).get ⟨k + 1, hk⟩).Annee =
        ((generate_financial_data cfg nz).get ⟨k, Nat.lt_of_succ_lt hk⟩).Annee + 1) := by
  have hann : ∀ k (hk : k < (generate_financial_data cfg nz).length),
      ((generate_financial_data cfg nz).get ⟨k, hk⟩).Annee = start_year + k := by
    intro k hk
    rw [generate_get, add_municipal_trends_Annee]
    rfl
  refine ⟨?_, hann, ?_⟩
  · rw [length_generate]; rfl
  · intro k hk
    rw [hann k (Nat.lt_of_succ_lt hk), hann (k + 1) hk, Nat.add_assoc]

/-- Witness for C5 at the default configuration with noise disabled. -/
theorem C5_witness :
    (generate_financial_data defaultConfig noNoise).length = end_year - start_year + 1 ∧
    ((generate_financial_data defaultConfig noNoise).get
        ⟨0, by rw [length_generate]; norm_num⟩).Annee = start_year + 0 :=
  ⟨(C5_rows defaultConfig noNoise).1,
    (C5_rows defaultConfig noNoise).2.1 0 (by rw [length_generate]; norm_num)⟩

/-- The mining-investment value of row 22 (year 2024) before the
event-adjustment pass, for the Koné configuration with noise disabled. -/
lemma mine_2024_raw :
    (genRow koneConfig noNoise 22).Investissement_Mine =
      50 * 0.04 * (1 + 0.038 * 22) * 2.1 * 1.8 := by
  simp only [genRow, simulate_mining_investment, mining_multiplier, koneConfig_eq, yearOf,
    start_year, noNoise]
  norm_num

/-- C1 (counterexample): for the locality with `population_base = 8000`,
`budget_base = 50`, rural, specialties containing mining and agriculture (the
stored Koné configuration), with noise disabled, the 2024 mining-investment
value in the table handed to consumers (after the event-adjustment pass) does
NOT equal `50*0.04 * (1+0.038*22) * 2.1 * 1.8`: the pass multiplies the mining
column by the post-pandemic stimulus factor 1.18 for every year ≥ 2022. -/
theorem C1_counterexample :
    ((generate_financial_data koneConfig noNoise).get? 22).map
        (fun r => r.Investissement_Mine) ≠
      some (50 * 0.04 * (1 + 0.038 * 22) * 2.1 * 1.8) := by
  have h : (generate_financial_data koneConfig noNoise).get? 22 =
      some (add_municipal_trends (genRow koneConfig noNoise 22)) := by
    simp [generate_financial_data, add_municipal_trends_table, rawTable, List.getElem?_map,
      List.getElem?_range, end_year, start_year]
  rw [h, Option.map_some', add_municipal_trends_eq]
  have hAnnee : (genRow koneConfig noNoise 22).Annee = 2024 := rfl
  simp only [hAnnee, mine_2024_raw, trendFactor_Mine]
  norm_num

/-- C1 (amended): same scenario, but the value delivered after the
event-adjustment pass equals `50*0.04 * (1+0.038*22) * 2.1 * 1.8 * 1.18` (the
post-pandemic stimulus multiplier 1.18 of the pass also applies to the mining
column in 2024); the claimed formula `50*0.04 * (1+0.038*22) * 2.1 * 1.8`
describes the value before the pass. -/
theorem C1_mine_2024 :
    ((generate_financial_data koneConfig noNoise).get? 22).map
        (fun r => r.Investissement_Mine) =
      some (50 * 0.04 * (1 + 0.038 * 22) * 2.1 * 1.8 * 1.18) ∧
    (genRow koneConfig noNoise 22).Investissement_Mine =
      50 * 0.04 * (1 + 0.038 * 22) * 2.1 * 1.8 := by
  refine ⟨?_, mine_2024_raw⟩
  have h : (generate_financial_data koneConfig noNoise).get? 22 =
      some (add_municipal_trends (genRow koneConfig noNoise 22)) := by
    simp [generate_financial_data, add_municipal_trends_table, rawTable, List.getElem?_map,
      List.getElem?_range, end_year, start_year]
  rw [h, Option.map_some', add_municipal_trends_eq]
  have hAnnee : (genRow koneConfig noNoise 22).Annee = 2024 := rfl
  simp only [hAnnee, mine_2024_raw, trendFactor_Mine]
  norm_num

/-- C2: the event-adjustment pass leaves the 2021 row's other-revenue and
tourism-investment columns exactly unchanged (the pandemic multipliers are
applied only under the inner `year == 2020` guard), while the 2020 row is
reduced by the factors 0.75 and 0.88.  Row index 19 is year 2021, row index 18
is year 2020 (Koné configuration, noise disabled). -/
theorem C2_pandemic_2021 :
    ((add_municipal_trends (genRow koneConfig noNoise 19)).Autres_Recettes =
        (genRow koneConfig noNoise 19).Autres_Recettes ∧
      (add_municipal_trends (genRow koneConfig noNoise 19)).Investissement_Tourisme =
        (genRow koneConfig noNoise 19).Investissement_Tourisme) ∧
    ((add_municipal_trends (genRow koneConfig noNoise 18)).Autres_Recettes =
        (genRow koneConfig noNoise 18).Autres_Recettes * 0.75 ∧
      (add_municipal_trends (genRow koneConfig noNoise 18)).Investissement_Tourisme =
        (genRow koneConfig noNoise 18).Investissement_Tourisme * 0.88) := by
  have h19 : (genRow koneConfig noNoise 19).Annee = 2021 := rfl
  have h18 : (genRow koneConfig noNoise 18).Annee = 2020 := rfl
  rw [add_municipal_trends_eq, add_municipal_trends_eq]
  simp only [h19, h18, trendFactor_Autres_Recettes, trendFactor_Tourisme]
  norm_num

/-- With every noise factor equal to 1, each generated row agrees with the
noise-free run: the noise values are the only stochastic inputs of `genRow`. -/
lemma genRow_allOnes (cfg : CommuneConfig) {n : Noise} (h : n.allOnes) (i : ℕ) :
    genRow cfg n i = genRow cfg noNoise i := by
  obtain ⟨e1, e2, e3, e4, e5, e6, e7, e8, e9, e10, e11, e12, e13, e14, e15, e16, e17, e18,
    e19, e20, e21⟩ := h i
  simp only [genRow, noNoise, e1, e2, e3, e4, e5, e6, e7, e8, e9, e10, e11, e12, e13, e14,
    e15, e16, e17, e18, e19, e20, e21]

/-- C3: with all noise standard deviations forced to 0 (every noise factor
equal to 1), the whole table-generation operation — per-column generators
followed by the event-adjustment pass — is a deterministic function of the
locality configuration and the year range: two runs over the same
configuration whose noise assignments are both identically 1 produce identical
tables in every column of every row. -/
theorem C3_deterministic (cfg : CommuneConfig) (n1 n2 : Noise)
    (h1 : n1.allOnes) (h2 : n2.allOnes) :
    generate_financial_data cfg n1 = generate_financial_data cfg n2 := by
  unfold generate_financial_data add_municipal_trends_table rawTable
  have hrow : genRow cfg n1 = genRow cfg n2 :=
    funext fun i => (genRow_allOnes cfg h1 i).trans (genRow_allOnes cfg h2 i).symm
  rw [hrow]

/-- Witness for C3: two noise-disabled runs at the default configuration. -/
theorem C3_witness :
    generate_financial_data defaultConfig noNoise =
      generate_financial_data defaultConfig noNoise :=
  C3_deterministic defaultConfig noNoise noNoise
    (fun _ => ⟨rfl, rfl, rfl, rfl, rfl, rfl, rfl, rfl, rfl, rfl, rfl, rfl, rfl, rfl, rfl,
      rfl, rfl, rfl, rfl, rfl, rfl⟩)
    (fun _ => ⟨rfl, rfl, rfl, rfl, rfl, rfl, rfl, rfl, rfl, rfl, rfl, rfl, rfl, rfl, rfl,
      rfl, rfl, rfl, rfl, rfl, rfl⟩)

/-- Bounds for a two-valued specialty multiplier `if c then hi else lo`. -/
lemma if_mult_bounds {c : Prop} [Decidable c] {hi lo : ℚ}
    (hhi1 : (1.4 : ℚ) ≤ hi) (hhi2 : hi ≤ 1.8) (hlo1 : (0.6 : ℚ) ≤ lo) (hlo2 : lo ≤ 0.9) :
    (c → 1.4 ≤ (if c then hi else lo) ∧ (if c then hi else lo) ≤ 1.8) ∧
    (¬c → 0.6 ≤ (if c then hi else lo) ∧ (if c then hi else lo) ≤ 0.9) := by
  constructor <;> intro h
  · rw [if_pos h]; exact ⟨hhi1, hhi2⟩
  · rw [if_neg h]; exact ⟨hlo1, hlo2⟩

lemma mul_mult_lt {b g y lo hi : ℚ} (hb : 0 < b) (hg : 0 < g) (hy : 0 < y)
    (h : lo < hi) : b * g * y * lo * 1 < b * g * y * hi * 1 := by
  have hp : 0 < b * g * y := by positivity
  calc b * g * y * lo * 1 = b * g * y * lo := by ring
    _ < b * g * y * hi := by exact mul_lt_mul_of_pos_left h hp
    _ = b * g * y * hi * 1 := by ring

/-- C6: for each of the seven sectoral-investment series, with noise disabled
and all other configuration fields equal, every generated value for a locality
whose specialty set contains the matching specialty string is strictly larger
than for a locality whose specialty set does not contain it; and the specialty
multiplier used is a fixed value in [1.4, 1.8] when the specialty is present
and in [0.6, 0.9] when it is absent. -/
theorem C6_specialty :
    ∀ (pb bb : ℚ) (ty : String) (s1 s2 : List String) (i : ℕ), 0 < bb →
    (("agriculture" ∈ s1 → "agriculture" ∉ s2 →
        simulate_agriculture_investment ⟨pb, bb, ty, s2⟩ i 1 <
          simulate_agriculture_investment ⟨pb, bb, ty, s1⟩ i 1) ∧
      ("tourisme" ∈ s1 → "tourisme" ∉ s2 →
        simulate_tourism_investment ⟨pb, bb, ty, s2⟩ i 1 <
          simulate_tourism_investment ⟨pb, bb, ty, s1⟩ i 1) ∧
      ("transport" ∈ s1 → "transport" ∉ s2 →
        simulate_transport_investment ⟨pb, bb, ty, s2⟩ i 1 <
          simulate_transport_investment ⟨pb, bb, ty, s1⟩ i 1) ∧
      ("education" ∈ s1 → "education" ∉ s2 →
        simulate_education_investment ⟨pb, bb, ty, s2⟩ i 1 <
          simulate_education_investment ⟨pb, bb, ty, s1⟩ i 1) ∧
      ("environnement" ∈ s1 → "environnement" ∉ s2 →
        simulate_environment_investment ⟨pb, bb, ty, s2⟩ i 1 <
          simulate_environment_investment ⟨pb, bb, ty, s1⟩ i 1) ∧
      ("culture" ∈ s1 → "culture" ∉ s2 →
        simulate_culture_investment ⟨pb, bb, ty, s2⟩ i 1 <
          simulate_culture_investment ⟨pb, bb, ty, s1⟩ i 1) ∧
      ("mine" ∈ s1 → "mine" ∉ s2 →
        simulate_mining_investment ⟨pb, bb, ty, s2⟩ i 1 <
          simulate_mining_investment ⟨pb, bb, ty, s1⟩ i 1)) ∧
    (∀ sp : List String,
      (("agriculture" ∈ sp →
          1.4 ≤ agriculture_multiplier sp ∧ agriculture_multiplier sp ≤ 1.8) ∧
        ("agriculture" ∉ sp →
          0.6 ≤ agriculture_multiplier sp ∧ agriculture_multiplier sp ≤ 0.9)) ∧
      (("tourisme" ∈ sp → 1.4 ≤ tourism_multiplier sp ∧ tourism_multiplier sp ≤ 1.8) ∧
        ("tourisme" ∉ sp → 0.6 ≤ tourism_multiplier sp ∧ tourism_multiplier sp ≤ 0.9)) ∧
      (("transport" ∈ sp → 1.4 ≤ transport_multiplier sp ∧ transport_multiplier sp ≤ 1.8) ∧
        ("transport" ∉ sp → 0.6 ≤ transport_multiplier sp ∧ transport_multiplier sp ≤ 0.9)) ∧
      (("education" ∈ sp → 1.4 ≤ education_multiplier sp ∧ education_multiplier sp ≤ 1.8) ∧
        ("education" ∉ sp → 0.6 ≤ education_multiplier sp ∧ education_multiplier sp ≤ 0.9)) ∧
      (("environnement" ∈ sp →
          1.4 ≤ environment_multiplier sp ∧ environment_multiplier sp ≤ 1.8) ∧
        ("environnement" ∉ sp →
          0.6 ≤ environment_multiplier sp ∧ environment_multiplier sp ≤ 0.9)) ∧
      (("culture" ∈ sp → 1.4 ≤ culture_multiplier sp ∧ culture_multiplier sp ≤ 1.8) ∧
        ("culture" ∉ sp → 0.6 ≤ culture_multiplier sp ∧ culture_multiplier sp ≤ 0.9)) ∧
      (("mine" ∈ sp → 1.4 ≤ mining_multiplier sp ∧ mining_multiplier sp ≤ 1.8) ∧
        ("mine" ∉ sp → 0.6 ≤ mining_multiplier sp ∧ mining_multiplier sp ≤ 0.9))) := by
  intro pb bb ty s1 s2 i hb
  constructor
  · refine ⟨fun hag1 hag2 => ?_, fun hto1 hto2 => ?_, fun htr1 htr2 => ?_,
      fun hed1 hed2 => ?_, fun hen1 hen2 => ?_, fun hcu1 hcu2 => ?_, fun hmi1 hmi2 => ?_⟩
    · simp only [simulate_agriculture_investment, agriculture_multiplier, if_pos hag1,
        if_neg hag2]
      exact mul_mult_lt (by positivity) (by positivity) (by split <;> norm_num) (by norm_num)
    · simp only [simulate_tourism_investment, tourism_multiplier, if_pos hto1, if_neg hto2]
      exact mul_mult_lt (by positivity) (by positivity) (by split <;> norm_num) (by norm_num)
    · simp only [simulate_transport_investment, transport_multiplier, if_pos htr1, if_neg htr2]
      exact mul_mult_lt (by positivity) (by positivity) (by split <;> norm_num) (by norm_num)
    · simp only [simulate_education_investment, education_multiplier, if_pos hed1, if_neg hed2]
      exact mul_mult_lt (by positivity) (by positivity) (by split <;> norm_num) (by norm_num)
    · simp only [simulate_environment_investment, environment_multiplier, if_pos hen1,
        if_neg hen2]
      exact mul_mult_lt (by positivity) (by positivity) (by split <;> norm_num) (by norm_num)
    · simp only [simulate_culture_investment, culture_multiplier, if_pos hcu1, if_neg hcu2]
      exact mul_mult_lt (by positivity) (by positivity) (by split <;> norm_num) (by norm_num)
    · simp only [simulate_mining_investment, mining_multiplier, if_pos hmi1, if_neg hmi2]
      exact mul_mult_lt (by positivity) (by positivity) (by split <;> norm_num) (by norm_num)
  · intro sp
    exact ⟨if_mult_bounds (by norm_num) (by norm_num) (by norm_num) (by norm_num),
      if_mult_bounds (by norm_num) (by norm_num) (by norm_num) (by norm_num),
      if_mult_bounds (by norm_num) (by norm_num) (by norm_num) (by norm_num),
      if_mult_bounds (by norm_num) (by norm_num) (by norm_num) (by norm_num),
      if_mult_bounds (by norm_num) (by norm_num) (by norm_num) (by norm_num),
      if_mult_bounds (by norm_num) (by norm_num) (by norm_num) (by norm_num),
      if_mult_bounds (by norm_num) (by norm_num) (by norm_num) (by norm_num)⟩

/-- Witness for C6 at a concrete input: the mining series at year index 5 for
two rural localities with budget 50, one holding the "mine" specialty and one
with an empty specialty set. -/
theorem C6_witness :
    simulate_mining_investment ⟨8000, 50, "rurale", []⟩ 5 1 <
      simulate_mining_investment ⟨8000, 50, "rurale", ["mine"]⟩ 5 1 :=
  ((C6_specialty 8000 50 "rurale" ["mine"] [] 5 (by norm_num)).1.2.2.2.2.2.2
    (by decide) (by decide))

/-- The pre-pass agriculture-investment value of row 0 (year 2002) for the Koné
configuration with noise disabled. -/
lemma agriculture_2002_raw :
    (genRow koneConfig noNoise 0).Investissement_Agriculture = 3.5 := by
  simp only [genRow, simulate_agriculture_investment, agriculture_multiplier, koneConfig_eq,
    yearOf, start_year, noNoise]
  norm_num

/-- C7: the event-adjustment pass is not idempotent.  For every row, one
application scales each adjusted column by the combined year-dependent
multiplier, and a second application scales it again, so the doubly-adjusted
value equals the pre-pass value times the square of that multiplier; applying
the pass twice to the freshly generated Koné table yields a different table
than applying it once. -/
theorem C7_not_idempotent :
    (∀ r : YearRow,
      ((add_municipal_trends r).Recettes_Totales =
          r.Recettes_Totales * trendFactor_Recettes_Totales r.Annee ∧
        (add_municipal_trends (add_municipal_trends r)).Recettes_Totales =
          r.Recettes_Totales * trendFactor_Recettes_Totales r.Annee ^ 2) ∧
      ((add_municipal_trends r).Dotations_Etat =
          r.Dotations_Etat * trendFactor_Dotations_Etat r.Annee ∧
        (add_municipal_trends (add_municipal_trends r)).Dotations_Etat =
          r.Dotations_Etat * trendFactor_Dotations_Etat r.Annee ^ 2) ∧
      ((add_municipal_trends r).Dotations_Territoriales =
          r.Dotations_Territoriales * trendFactor_Dotations_Territoriales r.Annee ∧
        (add_municipal_trends (add_municipal_trends r)).Dotations_Territoriales =
          r.Dotations_Territoriales * trendFactor_Dotations_Territoriales r.Annee ^ 2) ∧
      ((add_municipal_trends r).Autres_Recettes =
          r.Autres_Recettes * trendFactor_Autres_Recettes r.Annee ∧
        (add_municipal_trends (add_municipal_trends r)).Autres_Recettes =
          r.Autres_Recettes * trendFactor_Autres_Recettes r.Annee ^ 2) ∧
      ((add_municipal_trends r).Investissement =
          r.Investissement * trendFactor_Investissement r.Annee ∧
        (add_municipal_trends (add_municipal_trends r)).Investissement =
          r.Investissement * trendFactor_Investissement r.Annee ^ 2) ∧
      ((add_municipal_trends r).Investissement_Agriculture =
          r.Investissement_Agriculture * trendFactor_Agriculture r.Annee ∧
        (add_municipal_trends (add_municipal_trends r)).Investissement_Agriculture =
          r.Investissement_Agriculture * trendFactor_Agriculture r.Annee ^ 2) ∧
      ((add_municipal_trends r).Investissement_Tourisme =
          r.Investissement_Tourisme * trendFactor_Tourisme r.Annee ∧
        (add_municipal_trends (add_municipal_trends r)).Investissement_Tourisme =
          r.Investissement_Tourisme * trendFactor_Tourisme r.Annee ^ 2) ∧
      ((add_municipal_trends r).Investissement_Environnement =
          r.Investissement_Environnement * trendFactor_Environnement r.Annee ∧
        (add_municipal_trends (add_municipal_trends r)).Investissement_Environnement =
          r.Investissement_Environnement * trendFactor_Environnement r.Annee ^ 2) ∧
      ((add_municipal_trends r).Investissement_Mine =
          r.Investissement_Mine * trendFactor_Mine r.Annee ∧
        (add_municipal_trends (add_municipal_trends r)).Investissement_Mine =
          r.Investissement_Mine * trendFactor_Mine r.Annee ^ 2)) ∧
    add_municipal_trends_table (add_municipal_trends_table (rawTable koneConfig noNoise)) ≠
      add_municipal_trends_table (rawTable koneConfig noNoise) := by
  constructor
  · intro r
    simp only [add_municipal_trends_eq]
    exact ⟨⟨by ring_nf, by ring_nf⟩, ⟨by ring_nf, by ring_nf⟩, ⟨by ring_nf, by ring_nf⟩,
      ⟨by ring_nf, by ring_nf⟩, ⟨by ring_nf, by ring_nf⟩, ⟨by ring_nf, by ring_nf⟩,
      ⟨by ring_nf, by ring_nf⟩, ⟨by ring_nf, by ring_nf⟩, ⟨by ring_nf, by ring_nf⟩⟩
  · intro h
    have h0 : add_municipal_trends (add_municipal_trends (genRow koneConfig noNoise 0)) =
        add_municipal_trends (genRow koneConfig noNoise 0) := by
      have hc := congrArg (fun t => t.get? 0) h
      simpa [add_municipal_trends_table, rawTable, List.getElem?_map, List.getElem?_range,
        end_year, start_year] using hc
    have h1 := congrArg YearRow.Investissement_Agriculture h0
    have hA : (genRow koneConfig noNoise 0).Annee = 2002 := rfl
    simp only [add_municipal_trends_eq] at h1
    rw [hA, agriculture_2002_raw] at h1
    simp only [trendFactor_Agriculture] at h1
    norm_num at h1

/-- C8: the event-adjustment pass modifies only the columns named in its
adjustment rules; every other column of every row — year, population,
households, local taxes, total expense, operating expense, debt charge, staff
cost, savings, total debt, debt ratio, tax rate, and the transport, education
and culture investment columns — is left exactly unchanged.  The pass takes no
noise input at all (`add_municipal_trends : YearRow → YearRow`), so its output
is a deterministic function of the input table. -/
theorem C8_frame :
    ∀ r : YearRow,
      (add_municipal_trends r).Annee = r.Annee ∧
      (add_municipal_trends r).Population = r.Population ∧
      (add_municipal_trends r).Menages = r.Menages ∧
      (add_municipal_trends r).Impots_Locaux = r.Impots_Locaux ∧
      (add_municipal_trends r).Depenses_Totales = r.Depenses_Totales ∧
      (add_municipal_trends r).Fonctionnement = r.Fonctionnement ∧
      (add_municipal_trends r).Charge_Dette = r.Charge_Dette ∧
      (add_municipal_trends r).Personnel = r.Personnel ∧
      (add_municipal_trends r).Epargne_Brute = r.Epargne_Brute ∧
      (add_municipal_trends r).Dette_Totale = r.Dette_Totale ∧
      (add_municipal_trends r).Taux_Endettement = r.Taux_Endettement ∧
      (add_municipal_trends r).Taux_Fiscalite = r.Taux_Fiscalite ∧
      (add_municipal_trends r).Investissement_Transport = r.Investissement_Transport ∧
      (add_municipal_trends r).Investissement_Education = r.Investissement_Education ∧
      (add_municipal_trends r).Investissement_Culture = r.Investissement_Culture := by
  intro r
  rw [add_municipal_trends_eq]
  exact ⟨rfl, rfl, rfl, rfl, rfl, rfl, rfl, rfl, rfl, rfl, rfl, rfl, rfl, rfl, rfl⟩

/-! Non-negativity of every generated series at noise 1 (claim C9). -/

lemma simulate_population_nonneg (cfg : CommuneConfig) (hp : 0 ≤ cfg.population_base)
    (i : ℕ) : 0 ≤ simulate_population cfg i := by
  simp only [simulate_population]
  split_ifs <;> exact mul_nonneg hp (by positivity)

lemma simulate_households_nonneg (cfg : CommuneConfig) (hp : 0 ≤ cfg.population_base)
    (i : ℕ) : 0 ≤ simulate_households cfg i := by
  simp only [simulate_households]
  exact mul_nonneg (div_nonneg hp (by norm_num)) (by positivity)

lemma simulate_total_revenue_nonneg (cfg : CommuneConfig) (hb : 0 ≤ cfg.budget_base)
    (i : ℕ) : 0 ≤ simulate_total_revenue cfg i 1 := by
  simp only [simulate_total_revenue]
  split_ifs <;> exact mul_nonneg (mul_nonneg hb (by positivity)) (by norm_num)

lemma simulate_tax_revenue_nonneg (cfg : CommuneConfig) (hb : 0 ≤ cfg.budget_base)
    (i : ℕ) : 0 ≤ simulate_tax_revenue cfg i 1 := by
  simp only [simulate_tax_revenue]
  exact mul_nonneg (mul_nonneg (mul_nonneg hb (by norm_num)) (by positivity)) (by norm_num)

lemma simulate_state_grants_nonneg (cfg : CommuneConfig) (hb : 0 ≤ cfg.budget_base)
    (i : ℕ) : 0 ≤ simulate_state_grants cfg i 1 := by
  simp only [simulate_state_grants]
  refine mul_nonneg (mul_nonneg (mul_nonneg hb (by norm_num)) ?_) (by norm_num)
  split_ifs with h
  · have h' : (2010 : ℚ) ≤ (yearOf i : ℚ) := by exact_mod_cast h
    nlinarith
  · norm_num

lemma simulate_territorial_grants_nonneg (cfg : CommuneConfig) (hb : 0 ≤ cfg.budget_base)
    (i : ℕ) : 0 ≤ simulate_territorial_grants cfg i 1 := by
  simp only [simulate_territorial_grants]
  refine mul_nonneg (mul_nonneg (mul_nonneg hb (by norm_num)) ?_) (by norm_num)
  split_ifs with h
  · have h' : (2000 : ℚ) ≤ (yearOf i : ℚ) := by exact_mod_cast h
    nlinarith
  · norm_num

lemma simulate_other_revenue_nonneg (cfg : CommuneConfig) (hb : 0 ≤ cfg.budget_base)
    (i : ℕ) : 0 ≤ simulate_other_revenue cfg i 1 := by
  simp only [simulate_other_revenue]
  exact mul_nonneg (mul_nonneg (mul_nonneg hb (by norm_num)) (by positivity)) (by norm_num)

lemma simulate_total_expenses_nonneg (cfg : CommuneConfig) (hb : 0 ≤ cfg.budget_base)
    (i : ℕ) : 0 ≤ simulate_total_expenses cfg i 1 := by
  simp only [simulate_total_expenses]
  exact mul_nonneg (mul_nonneg (mul_nonneg hb (by norm_num)) (by positivity)) (by norm_num)

lemma simulate_operating_expenses_nonneg (cfg : CommuneConfig) (hb : 0 ≤ cfg.budget_base)
    (i : ℕ) : 0 ≤ simulate_operating_expenses cfg i 1 := by
  simp only [simulate_operating_expenses]
  exact mul_nonneg (mul_nonneg (mul_nonneg hb (by norm_num)) (by positivity)) (by norm_num)

lemma simulate_investment_expenses_nonneg (cfg : CommuneConfig) (hb : 0 ≤ cfg.budget_base)
    (i : ℕ) : 0 ≤ simulate_investment_expenses cfg i 1 := by
  simp only [simulate_investment_expenses]
  split_ifs <;>
    exact mul_nonneg
      (mul_nonneg (mul_nonneg (mul_nonneg hb (by norm_num)) (by positivity)) (by norm_num))
      (by norm_num)

lemma simulate_debt_charges_nonneg (cfg : CommuneConfig) (hb : 0 ≤ cfg.budget_base)
    (i : ℕ) : 0 ≤ simulate_debt_charges cfg i 1 := by
  simp only [simulate_debt_charges]
  refine mul_nonneg (mul_nonneg (mul_nonneg hb (by norm_num)) ?_) (by norm_num)
  split_ifs with h
  · have h' : (2005 : ℚ) ≤ (yearOf i : ℚ) := by exact_mod_cast h
    nlinarith
  · norm_num

lemma simulate_staff_costs_nonneg (cfg : CommuneConfig) (hb : 0 ≤ cfg.budget_base)
    (i : ℕ) : 0 ≤ simulate_staff_costs cfg i 1 := by
  simp only [simulate_staff_costs]
  exact mul_nonneg (mul_nonneg (mul_nonneg hb (by norm_num)) (by positivity)) (by norm_num)

lemma simulate_gross_savings_nonneg (cfg : CommuneConfig) (hb : 0 ≤ cfg.budget_base)
    (i : ℕ) : 0 ≤ simulate_gross_savings cfg i 1 := by
  simp only [simulate_gross_savings]
  refine mul_nonneg (mul_nonneg (mul_nonneg hb (by norm_num)) ?_) (by norm_num)
  split_ifs with h
  · have h' : (2010 : ℚ) ≤ (yearOf i : ℚ) := by exact_mod_cast h
    nlinarith
  · norm_num

lemma simulate_total_debt_nonneg (cfg : CommuneConfig) (hb : 0 ≤ cfg.budget_base)
    (i : ℕ) : 0 ≤ simulate_total_debt cfg i 1 := by
  simp only [simulate_total_debt]
  split_ifs <;>
    exact mul_nonneg (mul_nonneg (mul_nonneg hb (by norm_num)) (by norm_num)) (by norm_num)

/-- The debt-ratio expectation factor `1 - 0.012*(year - 2010)` stays
non-negative over the generated range (years up to 2025). -/
lemma simulate_debt_ratio_nonneg (i : ℕ) (hi : i < 24) : 0 ≤ simulate_debt_ratio i 1 := by
  simp only [simulate_debt_ratio]
  refine mul_nonneg (mul_nonneg (by norm_num) ?_) (by norm_num)
  split_ifs with h
  · have hy : (yearOf i : ℚ) ≤ 2025 := by
      have : yearOf i ≤ 2025 := by unfold yearOf start_year; omega
      exact_mod_cast this
    nlinarith
  · norm_num

lemma simulate_tax_rate_nonneg (i : ℕ) : 0 ≤ simulate_tax_rate i 1 := by
  simp only [simulate_tax_rate]
  refine mul_nonneg (mul_nonneg (by norm_num) ?_) (by norm_num)
  split_ifs with h
  · have h' : (2010 : ℚ) ≤ (yearOf i : ℚ) := by exact_mod_cast h
    nlinarith
  · norm_num

lemma simulate_agriculture_investment_nonneg (cfg : CommuneConfig)
    (hb : 0 ≤ cfg.budget_base) (i : ℕ) : 0 ≤ simulate_agriculture_investment cfg i 1 := by
  simp only [simulate_agriculture_investment, agriculture_multiplier]
  split_ifs <;>
    exact mul_nonneg
      (mul_nonneg
        (mul_nonneg (mul_nonneg (mul_nonneg hb (by norm_num)) (by positivity)) (by norm_num))
        (by norm_num))
      (by norm_num)

lemma simulate_tourism_investment_nonneg (cfg : CommuneConfig)
    (hb : 0 ≤ cfg.budget_base) (i : ℕ) : 0 ≤ simulate_tourism_investment cfg i 1 := by
  simp only [simulate_tourism_investment, tourism_multiplier]
  split_ifs <;>
    exact mul_nonneg
      (mul_nonneg
        (mul_nonneg (mul_nonneg (mul_nonneg hb (by norm_num)) (by positivity)) (by norm_num))
        (by norm_num))
      (by norm_num)

lemma simulate_transport_investment_nonneg (cfg : CommuneConfig)
    (hb : 0 ≤ cfg.budget_base) (i : ℕ) : 0 ≤ simulate_transport_investment cfg i 1 := by
  simp only [simulate_transport_investment, transport_multiplier]
  split_ifs <;>
    exact mul_nonneg
      (mul_nonneg
        (mul_nonneg (mul_nonneg (mul_nonneg hb (by norm_num)) (by positivity)) (by norm_num))
        (by norm_num))
      (by norm_num)

lemma simulate_education_investment_nonneg (cfg : CommuneConfig)
    (hb : 0 ≤ cfg.budget_base) (i : ℕ) : 0 ≤ simulate_education_investment cfg i 1 := by
  simp only [simulate_education_investment, education_multiplier]
  split_ifs <;>
    exact mul_nonneg
      (mul_nonneg
        (mul_nonneg (mul_nonneg (mul_nonneg hb (by norm_num)) (by positivity)) (by norm_num))
        (by norm_num))
      (by norm_num)

lemma simulate_environment_investment_nonneg (cfg : CommuneConfig)
    (hb : 0 ≤ cfg.budget_base) (i : ℕ) : 0 ≤ simulate_environment_investment cfg i 1 := by
  simp only [simulate_environment_investment, environment_multiplier]
  split_ifs <;>
    exact mul_nonneg
      (mul_nonneg
        (mul_nonneg (mul_nonneg (mul_nonneg hb (by norm_num)) (by positivity)) (by norm_num))
        (by norm_num))
      (by norm_num)

lemma simulate_culture_investment_nonneg (cfg : CommuneConfig)
    (hb : 0 ≤ cfg.budget_base) (i : ℕ) : 0 ≤ simulate_culture_investment cfg i 1 := by
  simp only [simulate_culture_investment, culture_multiplier]
  split_ifs <;>
    exact mul_nonneg
      (mul_nonneg
        (mul_nonneg (mul_nonneg (mul_nonneg hb (by norm_num)) (by positivity)) (by norm_num))
        (by norm_num))
      (by norm_num)

lemma simulate_mining_investment_nonneg (cfg : CommuneConfig)
    (hb : 0 ≤ cfg.budget_base) (i : ℕ) : 0 ≤ simulate_mining_investment cfg i 1 := by
  simp only [simulate_mining_investment, mining_multiplier]
  split_ifs <;>
    exact mul_nonneg
      (mul_nonneg
        (mul_nonneg (mul_nonneg (mul_nonneg hb (by norm_num)) (by positivity)) (by norm_num))
        (by norm_num))
      (by norm_num)

/-- Every numeric column of a row is non-negative. -/
def rowNonneg (r : YearRow) : Prop :=
  0 ≤ r.Population ∧ 0 ≤ r.Menages ∧ 0 ≤ r.Recettes_Totales ∧ 0 ≤ r.Impots_Locaux ∧
  0 ≤ r.Dotations_Etat ∧ 0 ≤ r.Dotations_Territoriales ∧ 0 ≤ r.Autres_Recettes ∧
  0 ≤ r.Depenses_Totales ∧ 0 ≤ r.Fonctionnement ∧ 0 ≤ r.Investissement ∧
  0 ≤ r.Charge_Dette ∧ 0 ≤ r.Personnel ∧ 0 ≤ r.Epargne_Brute ∧ 0 ≤ r.Dette_Totale ∧
  0 ≤ r.Taux_Endettement ∧ 0 ≤ r.Taux_Fiscalite ∧ 0 ≤ r.Investissement_Agriculture ∧
  0 ≤ r.Investissement_Tourisme ∧ 0 ≤ r.Investissement_Transport ∧
  0 ≤ r.Investissement_Education ∧ 0 ≤ r.Investissement_Environnement ∧
  0 ≤ r.Investissement_Culture ∧ 0 ≤ r.Investissement_Mine

lemma genRow_nonneg (cfg : CommuneConfig) (hp : 0 ≤ cfg.population_base)
    (hb : 0 ≤ cfg.budget_base) (i : ℕ) (hi : i < 24) :
    rowNonneg (genRow cfg noNoise i) :=
  ⟨simulate_population_nonneg cfg hp i, simulate_households_nonneg cfg hp i,
    simulate_total_revenue_nonneg cfg hb i, simulate_tax_revenue_nonneg cfg hb i,
    simulate_state_grants_nonneg cfg hb i, simulate_territorial_grants_nonneg cfg hb i,
    simulate_other_revenue_nonneg cfg hb i, simulate_total_expenses_nonneg cfg hb i,
    simulate_operating_expenses_nonneg cfg hb i, simulate_investment_expenses_nonneg cfg hb i,
    simulate_debt_charges_nonneg cfg hb i, simulate_staff_costs_nonneg cfg hb i,
    simulate_gross_savings_nonneg cfg hb i, simulate_total_debt_nonneg cfg hb i,
    simulate_debt_ratio_nonneg i hi, simulate_tax_rate_nonneg i,
    simulate_agriculture_investment_nonneg cfg hb i, simulate_tourism_investment_nonneg cfg hb i,
    simulate_transport_investment_nonneg cfg hb i, simulate_education_investment_nonneg cfg hb i,
    simulate_environment_investment_nonneg cfg hb i, simulate_culture_investment_nonneg cfg hb i,
    simulate_mining_investment_nonneg cfg hb i⟩

lemma tf_recettes_nonneg (y : ℕ) : 0 ≤ trendFactor_Recettes_Totales y := by
  unfold trendFactor_Recettes_Totales; split_ifs <;> norm_num

lemma tf_dotetat_nonneg (y : ℕ) : 0 ≤ trendFactor_Dotations_Etat y := by
  unfold trendFactor_Dotations_Etat
  split_ifs with h
  · have h' : (2010 : ℚ) ≤ (y : ℚ) := by exact_mod_cast h
    nlinarith
  · norm_num

lemma tf_dotterr_nonneg (y : ℕ) : 0 ≤ trendFactor_Dotations_Territoriales y := by
  unfold trendFactor_Dotations_Territoriales; split_ifs <;> norm_num

lemma tf_autres_nonneg (y : ℕ) : 0 ≤ trendFactor_Autres_Recettes y := by
  unfold trendFactor_Autres_Recettes; split_ifs <;> norm_num

lemma tf_investissement_nonneg (y : ℕ) : 0 ≤ trendFactor_Investissement y := by
  unfold trendFactor_Investissement; split_ifs <;> norm_num

lemma tf_agriculture_nonneg (y : ℕ) : 0 ≤ trendFactor_Agriculture y := by
  unfold trendFactor_Agriculture; split_ifs <;> norm_num

lemma tf_tourisme_nonneg (y : ℕ) : 0 ≤ trendFactor_Tourisme y := by
  unfold trendFactor_Tourisme; split_ifs <;> norm_num

lemma tf_environnement_nonneg (y : ℕ) : 0 ≤ trendFactor_Environnement y := by
  unfold trendFactor_Environnement
  split_ifs with h
  · have h' : (2010 : ℚ) ≤ (y : ℚ) := by exact_mod_cast h
    nlinarith
  · norm_num

lemma tf_mine_nonneg (y : ℕ) : 0 ≤ trendFactor_Mine y := by
  unfold trendFactor_Mine; split_ifs <;> norm_num

/-- The event-adjustment pass preserves non-negativity of every column. -/
lemma add_municipal_trends_nonneg (r : YearRow) (h : rowNonneg r) :
    rowNonneg (add_municipal_trends r) := by
  obtain ⟨h1, h2, h3, h4, h5, h6, h7, h8, h9, h10, h11, h12, h13, h14, h15, h16, h17, h18,
    h19, h20, h21, h22, h23⟩ := h
  rw [add_municipal_trends_eq]
  exact ⟨h1, h2, mul_nonneg h3 (tf_recettes_nonneg _), h4,
    mul_nonneg h5 (tf_dotetat_nonneg _), mul_nonneg h6 (tf_dotterr_nonneg _),
    mul_nonneg h7 (tf_autres_nonneg _), h8, h9, mul_nonneg h10 (tf_investissement_nonneg _),
    h11, h12, h13, h14, h15, h16, mul_nonneg h17 (tf_agriculture_nonneg _),
    mul_nonneg h18 (tf_tourisme_nonneg _), h19, h20,
    mul_nonneg h21 (tf_environnement_nonneg _), h22, mul_nonneg h23 (tf_mine_nonneg _)⟩

/-- C9: for every locality configuration with non-negative baselines, every
value of every column of every generated row — both before and after the
event-adjustment pass — is non-negative when noise is disabled (all noise
factors equal to 1, i.e. the expectation).  In particular the debt-ratio
factor `1 - 0.012*(year-2010)` stays non-negative over 2002-2025; the
generators never clamp, the values are non-negative as produced. -/
theorem C9_nonneg (cfg : CommuneConfig) (hp : 0 ≤ cfg.population_base)
    (hb : 0 ≤ cfg.budget_base) :
    (∀ r ∈ rawTable cfg noNoise, rowNonneg r) ∧
    (∀ r ∈ generate_financial_data cfg noNoise, rowNonneg r) := by
  have hraw : ∀ r ∈ rawTable cfg noNoise, rowNonneg r := by
    intro r hr
    rw [rawTable] at hr
    obtain ⟨i, hi, rfl⟩ := List.mem_map.mp hr
    have hi24 : i < 24 := by
      have := List.mem_range.mp hi
      simpa [end_year, start_year] using this
    exact genRow_nonneg cfg hp hb i hi24
  refine ⟨hraw, ?_⟩
  intro r hr
  rw [generate_financial_data, add_municipal_trends_table] at hr
  obtain ⟨r0, hr0, rfl⟩ := List.mem_map.mp hr
  exact add_municipal_trends_nonneg r0 (hraw r0 hr0)

/-- Witness for C9: the first generated row of the default configuration. -/
theorem C9_witness : rowNonneg (genRow defaultConfig noNoise 0) :=
  (C9_nonneg defaultConfig (by norm_num [defaultConfig]) (by norm_num [defaultConfig])).1
    (genRow defaultConfig noNoise 0)
    (by
      rw [rawTable]
      exact List.mem_map_of_mem _ (List.mem_range.mpr (by norm_num [end_year, start_year])))

/-- C10: with noise disabled, the state-grant value delivered for row `k`
carries two stacked multiplicative trends anchored at 2010: the generator
applies `1 + 0.01*(year-2010)` and the event-adjustment pass multiplies the
same column again by `1 + 0.015*(year-2010)`, so for `year = start_year + k ≥
2010` the final value is `budget_base * 0.25 * (1 + 0.01*(year-2010)) *
(1 + 0.015*(year-2010))`, while for years before 2010 neither trend applies
and the value is `budget_base * 0.25`. -/
theorem C10_state_grants (cfg : CommuneConfig) (k : ℕ)
    (hk : k < (generate_financial_data cfg noNoise).length) :
    (2010 ≤ start_year + k →
      ((generate_financial_data cfg noNoise).get ⟨k, hk⟩).Dotations_Etat =
        cfg.budget_base * 0.25 * (1 + 0.01 * (((start_year + k : ℕ) : ℚ) - 2010)) *
          (1 + 0.015 * (((start_year + k : ℕ) : ℚ) - 2010))) ∧
    (start_year + k < 2010 →
      ((generate_financial_data cfg noNoise).get ⟨k, hk⟩).Dotations_Etat =
        cfg.budget_base * 0.25) := by
  rw [generate_get, add_municipal_trends_eq]
  have hA : (genRow cfg noNoise k).Annee = start_year + k := rfl
  have hD : (genRow cfg noNoise k).Dotations_Etat = simulate_state_grants cfg k 1 := rfl
  constructor <;> intro h
  · rw [hA, hD]
    simp only [simulate_state_grants, trendFactor_Dotations_Etat, yearOf, if_pos h]
    ring
  · rw [hA, hD]
    simp only [simulate_state_grants, trendFactor_Dotations_Etat, yearOf,
      if_neg (Nat.not_le.mpr h)]
    ring

/-- Witness for C10: the Koné table at row 22 (year 2024 ≥ 2010, both trends)
and row 0 (year 2002 < 2010, no trend). -/
theorem C10_witness :
    ((generate_financial_data koneConfig noNoise).get
        ⟨22, by rw [length_generate]; norm_num⟩).Dotations_Etat =
      koneConfig.budget_base * 0.25 * (1 + 0.01 * (((start_year + 22 : ℕ) : ℚ) - 2010)) *
        (1 + 0.015 * (((start_year + 22 : ℕ) : ℚ) - 2010)) ∧
    ((generate_financial_data koneConfig noNoise).get
        ⟨0, by rw [length_generate]; norm_num⟩).Dotations_Etat =
      koneConfig.budget_base * 0.25 :=
  ⟨(C10_state_grants koneConfig 22 (by rw [length_generate]; norm_num)).1
      (by norm_num [start_year]),
    (C10_state_grants koneConfig 0 (by rw [length_generate]; norm_num)).2
      (by norm_num [start_year])⟩

end NCom
